import Mathlib

/-!
Verification of the synthetic-position execution engine in `app.py`
(Dhan webhook server: two-leg synthetic long on NIFTY).

The Python source is shallowly embedded:
  * network calls (order placement via `place_order_with_checks`, broker
    position queries, order-status polling) become explicit oracle
    parameters (`Broker`, `List BrokerPosition`, poll lists);
  * the global mutable dict `SYSTEM_POSITIONS` becomes an association
    list threaded through the webhook handlers;
  * the state file becomes an explicit `FileState`;
  * Python `date`s become `Int` ordinals (with `toString`/`String.toInt?`
    standing for `isoformat`/`fromisoformat`), Python floats in the
    liquidity check become `ℚ`.
Each definition mirrors the Python function of the same name.
-/

namespace Dhan

/-! ## Orders and broker oracle -/

/-- Order side (`transactionType` in `_post_order`). -/
inductive Side where
  | BUY : Side
  | SELL : Side
deriving DecidableEq, Repr

/-- One call to `place_order_with_checks(side, security_id, qty, t0, ensure_fill)`:
the arguments of a single-leg order attempt. -/
structure LegOrder where
  side : Side
  security_id : String
  qty : Int
  ensure_fill : Bool
deriving DecidableEq, Repr

/-- The fields of the dict returned by `place_order_with_checks` that the
synthetic-position logic reads: `placed` and `filled_completely`. -/
structure PlaceResult where
  placed : Bool
  filled_completely : Bool
deriving DecidableEq, Repr

/-- Oracle for the whole order pipeline (liquidity gate, margin gate, broker
submit, optional fill wait): maps an order attempt to its observed result. -/
abbrev Broker := LegOrder → PlaceResult

/-! ## Contracts and the persisted position store -/

/-- A populated synthetic contract (cf. the dicts built in
`load_nifty_option_metadata` / `ensure_contract_populated`).  Expiry dates
are modelled as `Int` ordinals. -/
structure Contract where
  name : String
  expiry : Int
  strike : Option Int
  call_security_id : String
  put_security_id : String
deriving DecidableEq, Repr

/-- A contract as held in `SYSTEM_POSITIONS` / the state file:
`serialize_contract` turned the expiry date into its ISO string. -/
structure SContract where
  name : String
  expiry : String
  strike : Option Int
  call_security_id : String
  put_security_id : String
deriving DecidableEq, Repr

/-- `serialize_contract`: copy the dict, rendering the expiry date as a
string (`date.isoformat`, here `toString` on the ordinal). -/
def serialize_contract (c : Contract) : SContract :=
  { name := c.name, expiry := toString c.expiry, strike := c.strike,
    call_security_id := c.call_security_id, put_security_id := c.put_security_id }

/-- `deserialize_contract`: parse the expiry string back to a date
(`date.fromisoformat`, here `String.toInt?`). -/
def deserialize_contract (s : SContract) : Contract :=
  { name := s.name, expiry := (s.expiry.toInt?).getD 0, strike := s.strike,
    call_security_id := s.call_security_id, put_security_id := s.put_security_id }

/-- One value of the `SYSTEM_POSITIONS` dict:
`{"contract": serialize_contract(contract), "qty": qty}` (webhook BUY branch). -/
structure PosRecord where
  contract : SContract
  qty : Int
deriving DecidableEq, Repr

/-- The `SYSTEM_POSITIONS` dict, as an association list keyed by system id. -/
abbrev Store := List (String × PosRecord)

/-- Dict lookup `SYSTEM_POSITIONS.get(id)` / `id in SYSTEM_POSITIONS`. -/
def Store.get (s : Store) (id : String) : Option PosRecord :=
  match s with
  | [] => none
  | (k, v) :: rest => if k = id then some v else Store.get rest id

/-- Dict assignment `SYSTEM_POSITIONS[id] = r` (overwrites any prior binding). -/
def Store.put (s : Store) (id : String) (r : PosRecord) : Store :=
  (id, r) :: s.filter (fun p => decide (p.1 ≠ id))

/-- Dict deletion `del SYSTEM_POSITIONS[id]`. -/
def Store.erase (s : Store) (id : String) : Store :=
  s.filter (fun p => decide (p.1 ≠ id))

/-- The state file `/tmp/system_positions.json`: absent, unreadable
(corrupt JSON), or readable with a committed store.  `json.dump`/`json.load`
on the plain string/number dict is modelled as the identity. -/
inductive FileState where
  | missing : FileState
  | unreadable : FileState
  | content (data : Store) : FileState
deriving DecidableEq

/-- `load_system_positions`: missing file or unreadable file yields the empty
dict; otherwise the committed content. -/
def load_system_positions : FileState → Store
  | .missing => []
  | .unreadable => []
  | .content d => d

/-- `save_system_positions`: writes the whole dict to a temp file and
atomically renames it over the state file. -/
def save_system_positions (s : Store) : FileState :=
  .content s

/-! ## Order status cache, `get_order`, `wait_for_fill` -/

/-- The fields of an order-status payload (broker GET response or postback)
that `wait_for_fill` reads.  Absent keys are `none`. -/
structure OrderStatus where
  orderId : Option String := none
  orderStatus : String
  filled_qty : Option Int := none
  filledQty : Option Int := none
  quantity : Option Int := none
deriving DecidableEq, Repr

/-- Python `a or b` on an optional int: `None` and `0` are falsy. -/
def pyOrI (a : Option Int) (b : Int) : Int :=
  match a with
  | some v => if v = 0 then b else v
  | none => b

/-- `st.get("filled_qty") or st.get("filledQty") or 0` in `wait_for_fill`. -/
def pyFilled (st : OrderStatus) : Int :=
  pyOrI st.filled_qty (pyOrI st.filledQty 0)

/-- `st.get("quantity") or 0` in `wait_for_fill`. -/
def pyQty (st : OrderStatus) : Int :=
  pyOrI st.quantity 0

/-- `ORDER_STATUS_CACHE`, keyed by order id. -/
abbrev StatusCache := List (String × OrderStatus)

/-- Cache lookup `order_id in ORDER_STATUS_CACHE` / `ORDER_STATUS_CACHE[order_id]`. -/
def cacheGet (c : StatusCache) (id : String) : Option OrderStatus :=
  match c with
  | [] => none
  | (k, v) :: rest => if k = id then some v else cacheGet rest id

/-- Cache assignment `ORDER_STATUS_CACHE[order_id] = payload`. -/
def cachePut (c : StatusCache) (id : String) (st : OrderStatus) : StatusCache :=
  (id, st) :: c.filter (fun p => decide (p.1 ≠ id))

/-- `dhan_postback`: extract `str(payload.get("orderId", "") or "")`; cache the
raw payload under it when non-empty. -/
def dhan_postback (c : StatusCache) (payload : OrderStatus) : StatusCache :=
  let order_id := payload.orderId.getD ""
  if order_id ≠ "" then cachePut c order_id payload else c

/-- The synthetic response `get_order` returns for the `"PAPER"` sentinel. -/
def paperOrderStatus : OrderStatus :=
  { orderId := some "PAPER", orderStatus := "PAPER",
    filledQty := some 0, quantity := some 0 }

/-- `get_order(order_id)`: PAPER sentinel short-circuits; otherwise prefer the
latest postback in `ORDER_STATUS_CACHE`; otherwise hit the broker HTTP API
(modelled by the `http` oracle; `none` = non-200 or exception). -/
def get_order (cache : StatusCache) (http : String → Option OrderStatus)
    (order_id : String) : Option OrderStatus :=
  if order_id = "PAPER" then some paperOrderStatus
  else
    match cacheGet cache order_id with
    | some st => some st
    | none => http order_id

/-- Terminal order states that stop the `wait_for_fill` polling loop. -/
def isTerminal (s : String) : Bool :=
  s = "TRADED" || s = "PART_TRADED" || s = "REJECTED" || s = "CANCELLED" || s = "EXPIRED"

/-- The polling loop body of `wait_for_fill`: `polls` is the bounded sequence
of `get_order` results observed inside the wait window (at most
`ORDER_FILL_MAX_WAIT / ORDER_FILL_POLL_INTERVAL` of them); `last` is the
running `last_status`. -/
def wait_go : List (Option OrderStatus) → Option OrderStatus → Bool × Option OrderStatus
  | [], last => (false, last)
  | none :: rest, last => wait_go rest last
  | some st :: rest, _ =>
    if isTerminal st.orderStatus then
      if st.orderStatus = "TRADED" ∧ pyQty st ≤ pyFilled st then (true, some st)
      else (false, some st)
    else wait_go rest (some st)

/-- `wait_for_fill(order_id)`: returns `(filled_completely, last_status)`. -/
def wait_for_fill (order_id : String) (polls : List (Option OrderStatus)) :
    Bool × Option OrderStatus :=
  if order_id = "PAPER" then (true, some { orderStatus := "PAPER" })
  else wait_go polls none

/-! ## Liquidity check -/

/-- One side of the top-of-book returned by `get_top_of_book_from_depth`:
a dict with `price` and `qty` keys (either possibly absent). -/
structure DepthLevel where
  price : Option ℚ := none
  qty : Option Int := none
deriving DecidableEq

/-- `{"bid": ..., "ask": ...}` from `get_top_of_book_from_depth`. -/
structure Book where
  bid : Option DepthLevel := none
  ask : Option DepthLevel := none
deriving DecidableEq

/-- The `info` dict returned by `check_liquidity`. -/
inductive LiqInfo where
  | missing_bid_or_ask : LiqInfo
  | invalid_bid_or_ask (bid_price ask_price : ℚ) : LiqInfo
  | checked (bid_price ask_price : ℚ) (bid_qty ask_qty : Int) (spread : ℚ)
      (ok_qty ok_spread : Bool) : LiqInfo
deriving DecidableEq

/-- `MAX_SPREAD_POINTS = 15.0` (module-level config constant). -/
def MAX_SPREAD_POINTS : ℚ := 15

/-- `MIN_QTY_MULTIPLIER = 1.0` (module-level config constant). -/
def MIN_QTY_MULTIPLIER : ℚ := 1

/-- `check_liquidity(security_id, qty)` with the fetched book and the two
config thresholds made explicit parameters.  `bid.get("price", 0.0) or 0.0`
is `getD 0` (the extra `or` only maps `0.0` to `0.0`). -/
def check_liquidity (maxSpreadPoints minQtyMultiplier : ℚ) (book : Book) (qty : Int) :
    Bool × LiqInfo :=
  match book.bid, book.ask with
  | some bid, some ask =>
    let bid_price : ℚ := bid.price.getD 0
    let bid_qty : Int := bid.qty.getD 0
    let ask_price : ℚ := ask.price.getD 0
    let ask_qty : Int := ask.qty.getD 0
    if bid_price ≤ 0 ∨ ask_price ≤ 0 then
      (false, .invalid_bid_or_ask bid_price ask_price)
    else
      let spread := ask_price - bid_price
      let ok_qty := decide ((qty : ℚ) * minQtyMultiplier ≤ (bid_qty : ℚ))
        && decide ((qty : ℚ) * minQtyMultiplier ≤ (ask_qty : ℚ))
      let ok_spread := decide (spread ≤ maxSpreadPoints)
      (ok_qty && ok_spread,
        .checked bid_price ask_price bid_qty ask_qty spread ok_qty ok_spread)
  | _, _ => (false, .missing_bid_or_ask)

/-- `check_liquidity` at the configured thresholds of `app.py`. -/
def check_liquidity_cfg (book : Book) (qty : Int) : Bool × LiqInfo :=
  check_liquidity MAX_SPREAD_POINTS MIN_QTY_MULTIPLIER book qty

/-! ## Broker positions and open-synthetic detection -/

/-- One entry of the `GET /positions` response (`get_positions`): the fields
`get_open_synth_long_for_contract` reads. -/
structure BrokerPosition where
  securityId : String
  netQty : Int
deriving DecidableEq, Repr

/-- The synthetic-long summary built by `get_open_synth_long_for_contract`. -/
structure OpenInfo where
  contract : Contract
  qty : Int
  call_net : Int
  put_net : Int
deriving DecidableEq, Repr

/-- `get_open_synth_long_for_contract(contract)` over an explicit positions
list (the `get_positions()` result; `[]` on HTTP error).  The Python loop
assigns `call_pos` / `put_pos` on match, so the LAST matching row wins, and
the `elif` means a row equal to the call id is never taken as the put row. -/
def get_open_synth_long_for_contract (positions : List BrokerPosition)
    (contract : Contract) : Option OpenInfo :=
  let call_pos := (positions.filter
    (fun p => decide (p.securityId = contract.call_security_id))).getLast?
  let put_pos := (positions.filter
    (fun p => decide (p.securityId = contract.put_security_id
      ∧ p.securityId ≠ contract.call_security_id))).getLast?
  match call_pos, put_pos with
  | some cp, some pp =>
    let call_net := cp.netQty
    let put_net := pp.netQty
    if 0 < call_net ∧ put_net < 0 then
      let qty := min call_net (-put_net)
      if qty ≤ 0 then none
      else some { contract := contract, qty := qty, call_net := call_net, put_net := put_net }
    else none
  | _, _ => none

/-! ## Two-leg entry and exit -/

/-- The long-leg order of `enter_synthetic_long`:
`place_order_with_checks("BUY", call_sid, qty, t0, ensure_fill=True)`. -/
def buy_call_order (contract : Contract) (qty : Int) : LegOrder :=
  { side := .BUY, security_id := contract.call_security_id, qty := qty, ensure_fill := true }

/-- The short-leg order of `enter_synthetic_long`:
`place_order_with_checks("SELL", put_sid, qty, t0, ensure_fill=False)`. -/
def sell_put_order (contract : Contract) (qty : Int) : LegOrder :=
  { side := .SELL, security_id := contract.put_security_id, qty := qty, ensure_fill := false }

/-- The short-leg closing order of `exit_synthetic_long`:
`place_order_with_checks("BUY", put_sid, qty, t0, ensure_fill=True)`. -/
def buy_put_order (contract : Contract) (qty : Int) : LegOrder :=
  { side := .BUY, security_id := contract.put_security_id, qty := qty, ensure_fill := true }

/-- The long-leg closing order of `exit_synthetic_long`:
`place_order_with_checks("SELL", call_sid, qty, t0, ensure_fill=False)`. -/
def sell_call_order (contract : Contract) (qty : Int) : LegOrder :=
  { side := .SELL, security_id := contract.call_security_id, qty := qty, ensure_fill := false }

@[simp] theorem buy_call_order_side (c : Contract) (q : Int) :
    (buy_call_order c q).side = Side.BUY := rfl

@[simp] theorem sell_put_order_side (c : Contract) (q : Int) :
    (sell_put_order c q).side = Side.SELL := rfl

@[simp] theorem buy_put_order_side (c : Contract) (q : Int) :
    (buy_put_order c q).side = Side.BUY := rfl

@[simp] theorem sell_call_order_side (c : Contract) (q : Int) :
    (sell_call_order c q).side = Side.SELL := rfl

@[simp] theorem buy_call_order_qty (c : Contract) (q : Int) :
    (buy_call_order c q).qty = q := rfl

@[simp] theorem sell_put_order_qty (c : Contract) (q : Int) :
    (sell_put_order c q).qty = q := rfl

@[simp] theorem buy_put_order_qty (c : Contract) (q : Int) :
    (buy_put_order c q).qty = q := rfl

@[simp] theorem sell_call_order_qty (c : Contract) (q : Int) :
    (sell_call_order c q).qty = q := rfl

@[simp] theorem buy_put_order_ensure (c : Contract) (q : Int) :
    (buy_put_order c q).ensure_fill = true := rfl

/-- The dict returned by `enter_synthetic_long`. -/
structure EnterResult where
  entered : Bool
  reason : Option String := none
  contract_name : Option String := none
  qty : Option Int := none
  buy_call : Option PlaceResult := none
  sell_put : Option PlaceResult := none
deriving DecidableEq, Repr

/-- The dict returned by `exit_synthetic_long`. -/
structure ExitResult where
  exited : Bool
  reason : Option String := none
  contract_name : Option String := none
  qty : Option Int := none
  buy_put : Option PlaceResult := none
  sell_call : Option PlaceResult := none
deriving DecidableEq, Repr

/-- `enter_synthetic_long(contract, qty, t0)`: BUY CALL with `ensure_fill=True`
first; only if it is placed and filled completely, SELL PUT with
`ensure_fill=False`.  Also returns the list of order attempts made (the
`place_order_with_checks` calls, in order). -/
def enter_synthetic_long (broker : Broker) (contract : Contract) (qty : Int) :
    EnterResult × List LegOrder :=
  let buy_call := broker (buy_call_order contract qty)
  if !buy_call.placed || !buy_call.filled_completely then
    ({ entered := false, reason := some "buy_call_failed_or_not_filled",
       buy_call := some buy_call },
     [buy_call_order contract qty])
  else
    let sell_put := broker (sell_put_order contract qty)
    ({ entered := true, contract_name := some contract.name, qty := some qty,
       buy_call := some buy_call, sell_put := some sell_put },
     [buy_call_order contract qty, sell_put_order contract qty])

/-- `exit_synthetic_long(contract, qty, t0)`: BUY PUT with `ensure_fill=True`
first; only if it is placed and filled completely, SELL CALL with
`ensure_fill=False`. -/
def exit_synthetic_long (broker : Broker) (contract : Contract) (qty : Int) :
    ExitResult × List LegOrder :=
  let buy_put := broker (buy_put_order contract qty)
  if !buy_put.placed || !buy_put.filled_completely then
    ({ exited := false, reason := some "buy_put_failed_or_not_filled",
       buy_put := some buy_put },
     [buy_put_order contract qty])
  else
    let sell_call := broker (sell_call_order contract qty)
    ({ exited := true, contract_name := some contract.name, qty := some qty,
       buy_put := some buy_put, sell_call := some sell_call },
     [buy_put_order contract qty, sell_call_order contract qty])

/-- `positions` reports non-zero exposure for `sid`. -/
def has_exposure (positions : List BrokerPosition) (sid : String) : Bool :=
  positions.any (fun p => decide (p.securityId = sid) && decide (p.netQty ≠ 0))

/-- Modelled from the spec (for comparison with `exit_synthetic_long`, which
contains no such logic): "A reconciliation fallback queries live broker
positions for both legs before each closing order — if the broker reports no
exposure at all for a leg, that leg is treated as already closed." -/
def exit_synthetic_long_reconciling (positions : List BrokerPosition)
    (broker : Broker) (contract : Contract) (qty : Int) : ExitResult × List LegOrder :=
  if has_exposure positions contract.put_security_id then
    let bp := broker (buy_put_order contract qty)
    if !bp.placed || !bp.filled_completely then
      ({ exited := false, reason := some "buy_put_failed_or_not_filled",
         buy_put := some bp },
       [buy_put_order contract qty])
    else
      if has_exposure positions contract.call_security_id then
        let sc := broker (sell_call_order contract qty)
        ({ exited := true, contract_name := some contract.name, qty := some qty,
           buy_put := some bp, sell_call := some sc },
         [buy_put_order contract qty, sell_call_order contract qty])
      else
        ({ exited := true, contract_name := some contract.name, qty := some qty,
           buy_put := some bp },
         [buy_put_order contract qty])
  else
    if has_exposure positions contract.call_security_id then
      let sc := broker (sell_call_order contract qty)
      ({ exited := true, contract_name := some contract.name, qty := some qty,
         sell_call := some sc },
       [sell_call_order contract qty])
    else
      ({ exited := true, contract_name := some contract.name, qty := some qty },
       ([] : List LegOrder))

/-! ## Contract selection and rollover -/

/-- Stable insert for `sorted(..., key=lambda c: c["expiry"])`: a later
element goes after all earlier ones with an expiry `≤` its own. -/
def insertByExpiry (c : Contract) : List Contract → List Contract
  | [] => [c]
  | d :: rest =>
    if d.expiry ≤ c.expiry then d :: insertByExpiry c rest else c :: d :: rest

/-- `sorted_synth_contracts()`: the configured contracts sorted by expiry
(stable, like Python's `sorted`). -/
def sorted_synth_contracts (contracts : List Contract) : List Contract :=
  contracts.foldl (fun acc c => insertByExpiry c acc) []

/-- The search loop of `get_near_and_next_contract`: first contract with
`expiry >= today`, paired with the element right after it. -/
def findNearAux (today : Int) : List Contract → Option (Contract × Option Contract)
  | [] => none
  | c :: rest =>
    if today ≤ c.expiry then some (c, rest.head?) else findNearAux today rest

/-- `get_near_and_next_contract(today)`. -/
def get_near_and_next_contract (today : Int) (contracts : List Contract) :
    Option Contract × Option Contract :=
  match sorted_synth_contracts contracts with
  | [] => (none, none)
  | c :: rest =>
    match findNearAux today (c :: rest) with
    | some (near, next?) => (some near, next?)
    | none => ((c :: rest).getLast?, none)

/-- The dict returned by `rollover_synthetic_if_needed` (when not `None`). -/
structure RolloverResult where
  rolled : Bool
  reason : Option String := none
  qty : Option Int := none
  from_contract : Option String := none
  to_contract : Option String := none
  exit_result : Option ExitResult := none
  enter_result : Option EnterResult := none
deriving DecidableEq, Repr

/-- `rollover_synthetic_if_needed(today, now_utc, t0)` with `now_utc` in
minutes: the IST gate is `(now_utc + 5h30) mod 24h < 12:30`.  Returns the
rollover result (or `none` = Python `None`) plus the order attempts made.
It never touches `SYSTEM_POSITIONS`. -/
def rollover_synthetic_if_needed (now_utc_min today : Int) (contracts : List Contract)
    (positions : List BrokerPosition) (broker : Broker) :
    Option RolloverResult × List LegOrder :=
  let now_ist := now_utc_min + 330
  if now_ist % 1440 < 750 then (none, [])
  else
    match get_near_and_next_contract today contracts with
    | (some near, some next_c) =>
      if near.expiry ≠ today then (none, [])
      else
        match get_open_synth_long_for_contract positions near with
        | none => (none, [])
        | some info =>
          let er := exit_synthetic_long broker near info.qty
          if !er.1.exited then
            (some { rolled := false, reason := some "exit_old_failed",
                    exit_result := some er.1 }, er.2)
          else
            let nr := enter_synthetic_long broker next_c info.qty
            if !nr.1.entered then
              (some { rolled := false, reason := some "enter_new_failed_after_exit",
                      exit_result := some er.1, enter_result := some nr.1 },
               er.2 ++ nr.2)
            else
              (some { rolled := true, qty := some info.qty,
                      from_contract := some near.name, to_contract := some next_c.name,
                      exit_result := some er.1, enter_result := some nr.1 },
               er.2 ++ nr.2)
    | _ => (none, [])

/-! ## Webhook branches (`tv_webhook`) -/

/-- The observable outcome of one webhook branch: the JSON response fields the
claims mention, the `SYSTEM_POSITIONS` store after the request, and the order
attempts made by the branch. -/
structure WebhookOutcome where
  status : String
  reason : Option String := none
  store : Store
  orders : List LegOrder
  enter_result : Option EnterResult := none
  exit_result : Option ExitResult := none
  rollover : Option RolloverResult := none
deriving DecidableEq

/-- The BUY branch of `tv_webhook` (after the rollover sweep, which never
touches the store): `contract?` is the `get_contract_for_new_long(today)`
result (`none` on resolution failure).  Guard: the contract check comes
first, then the duplicate-position check; the position is persisted (and
saved) only when `enter_res["entered"]`. -/
def tv_webhook_buy (store : Store) (contract? : Option Contract) (broker : Broker)
    (system_id : String) (qty : Int) : WebhookOutcome :=
  match contract? with
  | none =>
    { status := "error",
      reason := some "No NIFTY synthetic contracts available (metadata not loaded?)",
      store := store, orders := [] }
  | some contract =>
    if (Store.get store system_id).isSome then
      { status := "ignored", reason := some ("Position already open for " ++ system_id),
        store := store, orders := [] }
    else
      let r := enter_synthetic_long broker contract qty
      let store' :=
        if r.1.entered then
          Store.put store system_id { contract := serialize_contract contract, qty := qty }
        else store
      { status := if r.1.entered then "ok" else "failed",
        store := store', orders := r.2, enter_result := some r.1 }

/-- The SELL/EXIT branch of `tv_webhook`: no-op when no position is stored;
otherwise exit with the stored contract and qty, deleting (and saving) the
position only when `exit_res["exited"]`. -/
def tv_webhook_exit (store : Store) (broker : Broker) (system_id : String) :
    WebhookOutcome :=
  match Store.get store system_id with
  | none =>
    { status := "ignored", reason := some ("No open position for " ++ system_id),
      store := store, orders := [] }
  | some pos =>
    let contract := deserialize_contract pos.contract
    let r := exit_synthetic_long broker contract pos.qty
    let store' := if r.1.exited then Store.erase store system_id else store
    { status := if r.1.exited then "ok" else "failed",
      store := store', orders := r.2, exit_result := some r.1 }

/-- The CHECK branch of `tv_webhook`: run the rollover sweep only; the store
is returned exactly as received (no code path mutates it). -/
def tv_webhook_check (store : Store) (now_utc_min today : Int)
    (contracts : List Contract) (positions : List BrokerPosition) (broker : Broker) :
    WebhookOutcome :=
  let r := rollover_synthetic_if_needed now_utc_min today contracts positions broker
  { status := "ok", store := store, orders := r.2, rollover := r.1 }

/-! ## Concrete fixtures used by witnesses and counterexamples -/

/-- A populated synthetic contract used in concrete scenarios. -/
def cContract : Contract :=
  { name := "NIFTY_SYN_A", expiry := 100, strike := some 26000,
    call_security_id := "C1", put_security_id := "P1" }

/-- A broker oracle on which every order attempt fails. -/
def brokerNone : Broker := fun _ => { placed := false, filled_completely := false }

/-- A broker oracle on which every order attempt succeeds and fills. -/
def brokerAllOk : Broker := fun _ => { placed := true, filled_completely := true }

/-- A broker oracle on which BUY legs fill but SELL legs are rejected
(long leg fills, short-leg placement fails). -/
def brokerBuyOnly : Broker := fun o =>
  if o.side = Side.BUY then { placed := true, filled_completely := true }
  else { placed := false, filled_completely := false }

/-! ## Claim C9 -/

/-- Claim C9: putting a position state into the store and getting it back
yields the same state in all fields, also after a simulated process restart
(save, then reload from the persisted file); a missing or unreadable state
file loads as the empty state. -/
theorem store_put_get_roundtrip (s : Store) (id : String) (r : PosRecord) :
    Store.get (Store.put s id r) id = some r
    ∧ Store.get (load_system_positions (save_system_positions (Store.put s id r))) id
        = some r
    ∧ load_system_positions FileState.missing = []
    ∧ load_system_positions FileState.unreadable = [] := by
  refine ⟨?_, ?_, rfl, rfl⟩ <;>
    simp [Store.put, Store.get, load_system_positions, save_system_positions]

/-! ## Claim C8 -/

/-- Claim C8: the liquidity check rejects whenever bid or ask is absent or a
price is nonpositive, and otherwise accepts iff both displayed quantities are
at least `qty * minQtyMultiplier` and the spread is at most `maxSpreadPoints`;
in particular the quote bid 100.0 x200 / ask 102.0 x200 with qty 75, max
spread 5 and multiplier 1 is accepted (as it is at the configured 15 / 1). -/
theorem check_liquidity_correct (ms mm : ℚ) (book : Book) (qty : Int) :
    ((book.bid = none ∨ book.ask = none) → (check_liquidity ms mm book qty).1 = false)
    ∧ (∀ b a, book.bid = some b → book.ask = some a →
        ((b.price.getD 0 ≤ 0 ∨ a.price.getD 0 ≤ 0) →
          (check_liquidity ms mm book qty).1 = false)
        ∧ (0 < b.price.getD 0 → 0 < a.price.getD 0 →
          ((check_liquidity ms mm book qty).1 = true ↔
            ((qty : ℚ) * mm ≤ ((b.qty.getD 0 : Int) : ℚ)
              ∧ (qty : ℚ) * mm ≤ ((a.qty.getD 0 : Int) : ℚ)
              ∧ a.price.getD 0 - b.price.getD 0 ≤ ms))))
    ∧ (check_liquidity 5 1
        { bid := some { price := some 100, qty := some 200 },
          ask := some { price := some 102, qty := some 200 } } 75).1 = true
    ∧ (check_liquidity_cfg
        { bid := some { price := some 100, qty := some 200 },
          ask := some { price := some 102, qty := some 200 } } 75).1 = true := by
  refine ⟨?_, ?_, ?_, ?_⟩
  · rintro (h | h)
    · cases ha : book.ask <;> simp [check_liquidity, h, ha]
    · cases hb : book.bid <;> simp [check_liquidity, h, hb]
  · rintro b a hb ha
    constructor
    · intro hp
      simp only [check_liquidity, hb, ha]
      rw [if_pos hp]
    · intro hb0 ha0
      have hcond : ¬(b.price.getD 0 ≤ 0 ∨ a.price.getD 0 ≤ 0) := by
        push_neg
        exact ⟨hb0, ha0⟩
      simp only [check_liquidity, hb, ha]
      rw [if_neg hcond]
      simp [Bool.and_eq_true, decide_eq_true_eq, and_assoc]
  · norm_num [check_liquidity]
  · norm_num [check_liquidity_cfg, check_liquidity, MAX_SPREAD_POINTS, MIN_QTY_MULTIPLIER]

/-- Witness for C8: a book with both sides absent is rejected. -/
theorem check_liquidity_correct_witness :
    (check_liquidity 5 1 { bid := none, ask := none } 75).1 = false := by
  have h := check_liquidity_correct 5 1 { bid := none, ask := none } 75
  exact h.1 (Or.inl rfl)

/-! ## Claim C1 -/

/-- Claim C1: in `enter_synthetic_long` the long call-leg BUY (with
`ensure_fill`) is always the first order attempt; a SELL order is attempted
only if the long leg was placed and reported filled completely; when the long
leg is not placed or not completely filled, the result is `entered = false`
with reason `buy_call_failed_or_not_filled`, only the long leg was attempted,
and the webhook BUY branch leaves the store without an entry for the system
id. -/
theorem enter_gates_short_leg (broker : Broker) (contract : Contract) (qty : Int)
    (store : Store) (system_id : String) :
    ((enter_synthetic_long broker contract qty).2.head? = some (buy_call_order contract qty))
    ∧ (∀ o ∈ (enter_synthetic_long broker contract qty).2, o.side = Side.SELL →
        (broker (buy_call_order contract qty)).placed = true
        ∧ (broker (buy_call_order contract qty)).filled_completely = true)
    ∧ (((broker (buy_call_order contract qty)).placed = false
        ∨ (broker (buy_call_order contract qty)).filled_completely = false) →
        (enter_synthetic_long broker contract qty).1.entered = false
        ∧ (enter_synthetic_long broker contract qty).1.reason
            = some "buy_call_failed_or_not_filled"
        ∧ (enter_synthetic_long broker contract qty).2 = [buy_call_order contract qty])
    ∧ (Store.get store system_id = none →
        ((broker (buy_call_order contract qty)).placed = false
        ∨ (broker (buy_call_order contract qty)).filled_completely = false) →
        (tv_webhook_buy store (some contract) broker system_id qty).store = store
        ∧ Store.get (tv_webhook_buy store (some contract) broker system_id qty).store
            system_id = none) := by
  rcases hb : broker (buy_call_order contract qty) with ⟨p, f⟩
  refine ⟨?_, ?_, ?_, ?_⟩
  · cases p <;> cases f <;> simp [enter_synthetic_long, hb]
  · intro o ho hside
    cases p with
    | true =>
      cases f with
      | true => exact ⟨rfl, rfl⟩
      | false =>
        simp [enter_synthetic_long, hb] at ho
        subst ho
        simp at hside
    | false =>
      cases f <;>
        (simp [enter_synthetic_long, hb] at ho; subst ho; simp at hside)
  · intro hfail
    cases p with
    | true =>
      cases f with
      | true => simp [hb] at hfail
      | false => simp [enter_synthetic_long, hb]
    | false => cases f <;> simp [enter_synthetic_long, hb]
  · intro hnone hfail
    cases p with
    | true =>
      cases f with
      | true => simp [hb] at hfail
      | false => simp [tv_webhook_buy, enter_synthetic_long, hb, hnone]
    | false => cases f <;> simp [tv_webhook_buy, enter_synthetic_long, hb, hnone]

/-- Witness for C1: with a broker on which nothing fills, entering for a
fresh system id leaves the store empty. -/
theorem enter_gates_short_leg_witness :
    (tv_webhook_buy [] (some cContract) brokerNone "sysW" 75).store = [] := by
  have h := enter_gates_short_leg brokerNone cContract 75 [] "sysW"
  exact (h.2.2.2 rfl (Or.inl rfl)).1

/-! ## Claim C2 -/

/-- Claim C2: on the webhook EXIT path for a stored position, the put-leg
buy-to-close order is the first attempt and carries `ensure_fill = true`; if
it is not placed or not completely filled, no SELL (call-leg closing) order is
attempted, the result is `exited = false` (response status `failed`), and the
stored position is left unchanged. -/
theorem exit_gates_long_leg (store : Store) (broker : Broker) (system_id : String)
    (pos : PosRecord) (hpos : Store.get store system_id = some pos) :
    ((tv_webhook_exit store broker system_id).orders.head?
        = some (buy_put_order (deserialize_contract pos.contract) pos.qty))
    ∧ (buy_put_order (deserialize_contract pos.contract) pos.qty).ensure_fill = true
    ∧ (((broker (buy_put_order (deserialize_contract pos.contract) pos.qty)).placed = false
        ∨ (broker (buy_put_order (deserialize_contract pos.contract) pos.qty)).filled_completely
            = false) →
        (tv_webhook_exit store broker system_id).status = "failed"
        ∧ (tv_webhook_exit store broker system_id).store = store
        ∧ (tv_webhook_exit store broker system_id).orders
            = [buy_put_order (deserialize_contract pos.contract) pos.qty]
        ∧ (exit_synthetic_long broker (deserialize_contract pos.contract) pos.qty).1.exited
            = false
        ∧ (exit_synthetic_long broker (deserialize_contract pos.contract) pos.qty).1.reason
            = some "buy_put_failed_or_not_filled"
        ∧ ∀ o ∈ (tv_webhook_exit store broker system_id).orders, o.side ≠ Side.SELL) := by
  rcases hb : broker (buy_put_order (deserialize_contract pos.contract) pos.qty) with ⟨p, f⟩
  refine ⟨?_, by simp, ?_⟩
  · cases p <;> cases f <;> simp [tv_webhook_exit, exit_synthetic_long, hpos, hb]
  · intro hfail
    cases p with
    | true =>
      cases f with
      | true => simp [hb] at hfail
      | false => simp [tv_webhook_exit, exit_synthetic_long, hpos, hb]
    | false => cases f <;> simp [tv_webhook_exit, exit_synthetic_long, hpos, hb]

/-- A stored position record used in concrete exit scenarios. -/
def cRecord : PosRecord := { contract := serialize_contract cContract, qty := 75 }

/-- Witness for C2: a failing put-leg close leaves the stored position in
place. -/
theorem exit_gates_long_leg_witness :
    (tv_webhook_exit [("sysW2", cRecord)] brokerNone "sysW2").store = [("sysW2", cRecord)] := by
  have h := exit_gates_long_leg [("sysW2", cRecord)] brokerNone "sysW2" cRecord rfl
  exact (h.2.2 (Or.inl rfl)).2.1

/-! ## Claim C3 -/

/-- Claim C3 (amended): when a contract was resolved, a BUY signal for a
system id that already has a stored position is answered with status
`ignored` and leaves the store unchanged with no order attempted; when
contract resolution fails the answer is `error` instead of `ignored`, but the
store is still unchanged and no order is attempted. -/
theorem buy_duplicate_guard (store : Store) (contract : Contract) (broker : Broker)
    (system_id : String) (qty : Int) :
    ((Store.get store system_id).isSome = true →
      tv_webhook_buy store (some contract) broker system_id qty =
        { status := "ignored",
          reason := some ("Position already open for " ++ system_id),
          store := store, orders := [] })
    ∧ (tv_webhook_buy store none broker system_id qty).store = store
    ∧ (tv_webhook_buy store none broker system_id qty).orders = [] := by
  refine ⟨?_, rfl, rfl⟩
  intro h
  simp [tv_webhook_buy, h]

/-- A store already holding a position for system id `sys1`. -/
def cStore3 : Store := [("sys1", cRecord)]

/-- Counterexample for C3 as stated: with a position stored for `sys1` but
contract resolution failing, the BUY answer is `error`, not `ignored`. -/
theorem buy_duplicate_guard_counterexample :
    (Store.get cStore3 "sys1").isSome = true
    ∧ (tv_webhook_buy cStore3 none brokerAllOk "sys1" 75).status = "error"
    ∧ (tv_webhook_buy cStore3 none brokerAllOk "sys1" 75).status ≠ "ignored" := by
  refine ⟨rfl, rfl, by decide⟩

/-- Witness for C3: a duplicate BUY for `sys1` is answered `ignored` with the
store unchanged. -/
theorem buy_duplicate_guard_witness :
    tv_webhook_buy cStore3 (some cContract) brokerAllOk "sys1" 75 =
      { status := "ignored", reason := some ("Position already open for " ++ "sys1"),
        store := cStore3, orders := [] } := by
  exact (buy_duplicate_guard cStore3 cContract brokerAllOk "sys1" 75).1 rfl

/-! ## Claim C4 -/

/-- Claim C4 (amended): once the long call leg is confirmed filled, a
position is persisted for the system id regardless of whether the short
put-leg placement succeeded — but the persisted record is always just
`{contract, qty}` (identical in the partial and the full case, with the
put-leg instrument still recorded), the response status is `ok`, and the
result carries the raw `sell_put` placement result rather than a partial
flag. -/
theorem enter_persists_after_long_fill (broker : Broker) (contract : Contract)
    (qty : Int) (store : Store) (system_id : String)
    (hnew : Store.get store system_id = none)
    (hp : (broker (buy_call_order contract qty)).placed = true)
    (hf : (broker (buy_call_order contract qty)).filled_completely = true) :
    (enter_synthetic_long broker contract qty).1.entered = true
    ∧ (enter_synthetic_long broker contract qty).1.sell_put
        = some (broker (sell_put_order contract qty))
    ∧ Store.get (tv_webhook_buy store (some contract) broker system_id qty).store system_id
        = some { contract := serialize_contract contract, qty := qty }
    ∧ (tv_webhook_buy store (some contract) broker system_id qty).status = "ok"
    ∧ (tv_webhook_buy store (some contract) broker system_id qty).store
        = Store.put store system_id { contract := serialize_contract contract, qty := qty } := by
  simp [enter_synthetic_long, tv_webhook_buy, hnew, hp, hf, Store.put, Store.get]

/-- Witness for C4 (amended): long leg fills, short leg is rejected, and the
`{contract, qty}` record is persisted. -/
theorem enter_persists_after_long_fill_witness :
    Store.get (tv_webhook_buy [] (some cContract) brokerBuyOnly "sysW4" 75).store "sysW4"
      = some { contract := serialize_contract cContract, qty := 75 } := by
  exact (enter_persists_after_long_fill brokerBuyOnly cContract 75 [] "sysW4" rfl rfl rfl).2.2.1

/-- Counterexample for C4 as stated: when the long leg fills and the short
leg fails, the stored record is byte-for-byte the same as on full success —
there is no `PARTIAL_OPEN` status, no warning flag, and the put-leg field of
the stored contract is not empty; the result has no `partial` field, only
`entered = true`. -/
theorem enter_partial_counterexample :
    (enter_synthetic_long brokerBuyOnly cContract 75).1.entered = true
    ∧ (tv_webhook_buy [] (some cContract) brokerBuyOnly "sysP" 75).store
        = (tv_webhook_buy [] (some cContract) brokerAllOk "sysP" 75).store
    ∧ Store.get (tv_webhook_buy [] (some cContract) brokerBuyOnly "sysP" 75).store "sysP"
        = some { contract := serialize_contract cContract, qty := 75 }
    ∧ (serialize_contract cContract).put_security_id = "P1" := by
  refine ⟨rfl, rfl, ?_, rfl⟩
  simp [tv_webhook_buy, enter_synthetic_long, brokerBuyOnly, buy_call_order,
    Store.get, Store.put]

/-! ## Claim C6 -/

/-- Claim C6 (amended): `exit_synthetic_long` performs no reconciliation —
it receives no broker-position information at all, always attempts the
put-leg closing order first, and whenever that leg is placed and filled it
always attempts the call-leg closing order as well; no closing order is ever
skipped because the broker reports no exposure. -/
theorem exit_no_reconciliation (broker : Broker) (contract : Contract) (qty : Int) :
    ((exit_synthetic_long broker contract qty).2.head? = some (buy_put_order contract qty))
    ∧ ((broker (buy_put_order contract qty)).placed = true →
        (broker (buy_put_order contract qty)).filled_completely = true →
        (exit_synthetic_long broker contract qty).2
          = [buy_put_order contract qty, sell_call_order contract qty]) := by
  rcases hb : broker (buy_put_order contract qty) with ⟨p, f⟩
  cases p <;> cases f <;> simp [exit_synthetic_long, hb]

/-- Witness for C6 (amended): with every order succeeding, both closing
orders are attempted. -/
theorem exit_no_reconciliation_witness :
    (exit_synthetic_long brokerAllOk cContract 75).2
      = [buy_put_order cContract 75, sell_call_order cContract 75] := by
  exact (exit_no_reconciliation brokerAllOk cContract 75).2 rfl rfl

/-- Counterexample for C6 as stated: with the broker reporting no exposure
at all for either leg (empty positions list), the code still submits both
closing orders, while the reconciliation described by the spec (modelled in
`exit_synthetic_long_reconciling`) would skip both. -/
theorem exit_reconciliation_counterexample :
    (exit_synthetic_long brokerAllOk cContract 75).2
        = [buy_put_order cContract 75, sell_call_order cContract 75]
    ∧ (exit_synthetic_long_reconciling [] brokerAllOk cContract 75).2 = []
    ∧ [buy_put_order cContract 75, sell_call_order cContract 75] ≠ ([] : List LegOrder) := by
  refine ⟨rfl, rfl, by decide⟩

/-! ## Claim C7 -/

/-- The polling loop returns `true` exactly when it stopped on a TRADED
status whose filled quantity is at least the requested quantity, provided
the running `last_status` is not terminal (the loop's own invariant). -/
theorem wait_go_true_iff (polls : List (Option OrderStatus)) (last : Option OrderStatus)
    (hlast : ∀ st, last = some st → isTerminal st.orderStatus = false) :
    (wait_go polls last).1 = true ↔
      ∃ st, (wait_go polls last).2 = some st ∧ st.orderStatus = "TRADED"
        ∧ pyQty st ≤ pyFilled st := by
  induction polls generalizing last with
  | nil =>
    simp only [wait_go]
    constructor
    · intro h
      exact absurd h (by simp)
    · rintro ⟨st, hst, htr, _⟩
      have := hlast st hst
      rw [htr] at this
      simp [isTerminal] at this
  | cons hd tl ih =>
    cases hd with
    | none =>
      simpa only [wait_go] using ih last hlast
    | some st =>
      by_cases hterm : isTerminal st.orderStatus = true
      · by_cases hq : st.orderStatus = "TRADED" ∧ pyQty st ≤ pyFilled st
        · simp [wait_go, hterm, hq, hq.1, hq.2, isTerminal]
        · simp only [wait_go, hterm, if_true, if_neg hq]
          constructor
          · intro h
            exact absurd h (by simp)
          · rintro ⟨st', hst', htr', hle'⟩
            cases hst'
            exact absurd ⟨htr', hle'⟩ hq
      · have hterm' : isTerminal st.orderStatus = false := by
          simpa using hterm
        simp only [wait_go, hterm', Bool.false_eq_true, if_false]
        exact ih (some st) (by intro st' h; cases h; exact hterm')

/-- Claim C7 (amended): for any real (non-PAPER) order, `wait_for_fill`
reports `filled_completely = true` iff polling stopped on a terminal TRADED
status with filled quantity at least (not exactly equal to) the requested
quantity; every other terminal status and exhaustion of the wait window
yield `false`. -/
theorem wait_for_fill_true_iff (order_id : String) (polls : List (Option OrderStatus))
    (hid : order_id ≠ "PAPER") :
    (wait_for_fill order_id polls).1 = true ↔
      ∃ st, (wait_for_fill order_id polls).2 = some st
        ∧ st.orderStatus = "TRADED" ∧ pyQty st ≤ pyFilled st := by
  simp only [wait_for_fill, if_neg hid]
  exact wait_go_true_iff polls none (by intro st h; cases h)

/-- A TRADED status observed with filled quantity 75 and qty 75. -/
def cTraded : OrderStatus :=
  { orderStatus := "TRADED", filled_qty := some 75, quantity := some 75 }

/-- Witness for C7: a poll sequence ending in a fully filled TRADED status
yields `filled_completely = true`. -/
theorem wait_for_fill_true_iff_witness :
    (wait_for_fill "ordW" [none, some cTraded]).1 = true := by
  have h := wait_for_fill_true_iff "ordW" [none, some cTraded] (by decide)
  exact h.mpr ⟨cTraded, rfl, rfl, by decide⟩

/-- A TRADED status payload whose `quantity` key is absent (defaulting to 0)
while 75 units are reported filled. -/
def cOverfill : OrderStatus := { orderStatus := "TRADED", filledQty := some 75 }

/-- Counterexample for C7 as stated: a TRADED status with filled quantity 75
and (absent, hence 0) requested quantity yields `filled_completely = true`
although the filled quantity does not equal the requested quantity — the
code tests `filled_qty >= qty`, not equality. -/
theorem wait_for_fill_eq_counterexample :
    (wait_for_fill "ord1" [some cOverfill]).1 = true
    ∧ (wait_for_fill "ord1" [some cOverfill]).2 = some cOverfill
    ∧ pyFilled cOverfill = 75
    ∧ pyQty cOverfill = 0
    ∧ pyFilled cOverfill ≠ pyQty cOverfill := by
  refine ⟨rfl, rfl, rfl, rfl, by decide⟩

/-! ## Claim C10 -/

/-- Removing all bindings for a key other than `id` does not change the
lookup for `id`. -/
theorem cacheGet_filter_ne (c : StatusCache) (id x : String) (h : id ≠ x) :
    cacheGet (c.filter (fun p => decide (p.1 ≠ x))) id = cacheGet c id := by
  induction c with
  | nil => rfl
  | cons hd tl ih =>
    simp only [decide_not] at ih
    rcases hd with ⟨k, v⟩
    by_cases hk : k = x
    · have hkid : ¬(k = id) := fun hkid => h (hkid ▸ hk)
      simp [List.filter_cons, hk, cacheGet, hkid, ih, Ne.symm h]
    · by_cases hkid : k = id
      · simp [List.filter_cons, hk, cacheGet, hkid, h]
      · simp [List.filter_cons, hk, cacheGet, hkid, ih]

/-- For a status that never reaches a qualifying terminal state, or reaches
one immediately, polling the same cached payload for the whole window gives
a result determined by that payload alone. -/
theorem wait_go_replicate (st : OrderStatus) (k : Nat) (last : Option OrderStatus)
    (hk : 0 < k) :
    (wait_go (List.replicate k (some st)) last).1
      = (decide (st.orderStatus = "TRADED") && decide (pyQty st ≤ pyFilled st)) := by
  induction k generalizing last with
  | zero => exact absurd hk (by simp)
  | succ n ih =>
    simp only [List.replicate_succ, wait_go]
    by_cases hterm : isTerminal st.orderStatus = true
    · rw [if_pos hterm]
      by_cases hq : st.orderStatus = "TRADED" ∧ pyQty st ≤ pyFilled st
      · simp [hq, hq.1, hq.2]
      · rw [if_neg hq]
        rcases Decidable.not_and_iff_or_not.mp hq with h1 | h2
        · simp [h1]
        · simp [h2]
    · have hterm' : isTerminal st.orderStatus = false := by simpa using hterm
      have hnt : ¬(st.orderStatus = "TRADED") := by
        intro h
        rw [h] at hterm'
        simp [isTerminal] at hterm'
      rw [if_neg (by simp [hterm'])]
      cases n with
      | zero => simp [List.replicate, wait_go, hnt]
      | succ m =>
        rw [ih (some st) (Nat.succ_pos m)]

/-- Claim C10 (amended): for every order id other than the `"PAPER"`
sentinel — once a postback payload for the id has been cached, `get_order`
returns the cached payload whatever the broker HTTP oracle does; a postback
for a different id never evicts it (there is no TTL or invalidation
anywhere); and `wait_for_fill` polling such an order for any positive window
decides `filled_completely` solely from the cached payload. -/
theorem postback_cache_behaviour (cache : StatusCache)
    (http http' : String → Option OrderStatus) (order_id : String)
    (st payload : OrderStatus) (k : Nat) (hid : order_id ≠ "PAPER") :
    (cacheGet cache order_id = some st →
      get_order cache http order_id = some st
      ∧ get_order cache http' order_id = some st)
    ∧ (payload.orderId.getD "" = order_id → order_id ≠ "" →
        cacheGet (dhan_postback cache payload) order_id = some payload)
    ∧ (cacheGet cache order_id = some st → payload.orderId.getD "" ≠ order_id →
        cacheGet (dhan_postback cache payload) order_id = some st)
    ∧ (cacheGet cache order_id = some st → 0 < k →
        (wait_for_fill order_id (List.replicate k (get_order cache http order_id))).1
          = (decide (st.orderStatus = "TRADED") && decide (pyQty st ≤ pyFilled st))) := by
  refine ⟨?_, ?_, ?_, ?_⟩
  · intro h
    constructor <;> simp [get_order, hid, h]
  · intro hpid hne
    rw [dhan_postback, hpid, if_pos hne]
    simp [cacheGet, cachePut]
  · intro h hne
    rw [dhan_postback]
    by_cases hblank : payload.orderId.getD "" ≠ ""
    · rw [if_pos hblank]
      rw [cachePut]
      have hne' : ¬(payload.orderId.getD "" = order_id) := hne
      simp only [cacheGet]
      rw [if_neg (fun hx => hne' hx)]
      rw [cacheGet_filter_ne cache order_id _ (fun hx => hne' hx.symm)]
      exact h
    · rw [if_neg hblank]
      exact h
  · intro h hk
    have hg : get_order cache http order_id = some st := by
      simp [get_order, hid, h]
    rw [hg]
    simp only [wait_for_fill, if_neg hid]
    exact wait_go_replicate st k none hk

/-- A cached postback payload for order id `ord9`. -/
def cPayload : OrderStatus :=
  { orderId := some "ord9", orderStatus := "TRADED",
    filledQty := some 75, quantity := some 75 }

/-- Witness for C10: with `ord9` cached, `get_order` returns the cached
payload with a broker oracle that always fails, and a 3-poll wait decides
`true` from the payload alone. -/
theorem postback_cache_behaviour_witness :
    get_order [("ord9", cPayload)] (fun _ => none) "ord9" = some cPayload
    ∧ (wait_for_fill "ord9"
        (List.replicate 3 (get_order [("ord9", cPayload)] (fun _ => none) "ord9"))).1
        = true := by
  have h := postback_cache_behaviour [("ord9", cPayload)] (fun _ => none) (fun _ => none)
    "ord9" cPayload cPayload 3 (by decide)
  refine ⟨(h.1 rfl).1, ?_⟩
  rw [h.2.2.2 rfl (by decide)]
  decide

/-- A postback payload whose order id is the `"PAPER"` sentinel. -/
def cPaperPayload : OrderStatus :=
  { orderId := some "PAPER", orderStatus := "TRADED",
    filledQty := some 75, quantity := some 75 }

/-- Counterexample for C10 as stated: a postback for order id `"PAPER"` is
cached, yet a subsequent `get_order "PAPER"` returns the synthetic paper
response, not the cached postback payload. -/
theorem get_order_paper_counterexample :
    dhan_postback [] cPaperPayload = [("PAPER", cPaperPayload)]
    ∧ get_order [("PAPER", cPaperPayload)] (fun _ => none) "PAPER" = some paperOrderStatus
    ∧ some paperOrderStatus ≠ some cPaperPayload := by
  refine ⟨rfl, rfl, by decide⟩

/-! ## Claim C5 -/

/-- Every order attempted by `enter_synthetic_long` carries the requested
quantity. -/
theorem enter_orders_qty (broker : Broker) (contract : Contract) (qty : Int) :
    ∀ o ∈ (enter_synthetic_long broker contract qty).2, o.qty = qty := by
  intro o ho
  rcases hb : broker (buy_call_order contract qty) with ⟨p, f⟩
  cases p <;> cases f <;>
    (simp [enter_synthetic_long, hb] at ho;
     first
       | (subst ho; simp)
       | (rcases ho with ho | ho <;> subst ho <;> simp))

/-- Every order attempted by `exit_synthetic_long` carries the requested
quantity. -/
theorem exit_orders_qty (broker : Broker) (contract : Contract) (qty : Int) :
    ∀ o ∈ (exit_synthetic_long broker contract qty).2, o.qty = qty := by
  intro o ho
  rcases hb : broker (buy_put_order contract qty) with ⟨p, f⟩
  cases p <;> cases f <;>
    (simp [exit_synthetic_long, hb] at ho;
     first
       | (subst ho; simp)
       | (rcases ho with ho | ho <;> subst ho <;> simp))

/-- Claim C5 (amended): past the time gate, when today is the near contract's
expiry and an open synthetic long is detected, rollover exits the old
contract first; if the exit fails the new entry is never attempted and the
failure is recorded (`exit_old_failed`); if the exit succeeds, entry on the
next contract is attempted with the same quantity, and a failed entry after
a successful exit is flagged (`enter_new_failed_after_exit`); but the
rollover never reads or writes the position store — in particular the CHECK
webhook returns the store exactly as received, so no stored position is
removed or replaced by a rollover. -/
theorem rollover_exit_then_enter (now_utc_min today : Int) (contracts : List Contract)
    (positions : List BrokerPosition) (broker : Broker)
    (near next_c : Contract) (info : OpenInfo)
    (hgate : ¬ (now_utc_min + 330) % 1440 < 750)
    (hnear : get_near_and_next_contract today contracts = (some near, some next_c))
    (hexp : near.expiry = today)
    (hopen : get_open_synth_long_for_contract positions near = some info) :
    ((exit_synthetic_long broker near info.qty).1.exited = false →
      rollover_synthetic_if_needed now_utc_min today contracts positions broker
        = (some { rolled := false, reason := some "exit_old_failed",
                  exit_result := some (exit_synthetic_long broker near info.qty).1 },
           (exit_synthetic_long broker near info.qty).2))
    ∧ ((exit_synthetic_long broker near info.qty).1.exited = true →
        (enter_synthetic_long broker next_c info.qty).1.entered = false →
        rollover_synthetic_if_needed now_utc_min today contracts positions broker
          = (some { rolled := false, reason := some "enter_new_failed_after_exit",
                    exit_result := some (exit_synthetic_long broker near info.qty).1,
                    enter_result := some (enter_synthetic_long broker next_c info.qty).1 },
             (exit_synthetic_long broker near info.qty).2
               ++ (enter_synthetic_long broker next_c info.qty).2))
    ∧ (∀ o ∈ (rollover_synthetic_if_needed now_utc_min today contracts positions broker).2,
        o.qty = info.qty)
    ∧ ∀ s : Store,
        (tv_webhook_check s now_utc_min today contracts positions broker).store = s := by
  have hred : rollover_synthetic_if_needed now_utc_min today contracts positions broker
      = (if !(exit_synthetic_long broker near info.qty).1.exited then
           (some { rolled := false, reason := some "exit_old_failed",
                   exit_result := some (exit_synthetic_long broker near info.qty).1 },
            (exit_synthetic_long broker near info.qty).2)
         else if !(enter_synthetic_long broker next_c info.qty).1.entered then
           (some { rolled := false, reason := some "enter_new_failed_after_exit",
                   exit_result := some (exit_synthetic_long broker near info.qty).1,
                   enter_result := some (enter_synthetic_long broker next_c info.qty).1 },
            (exit_synthetic_long broker near info.qty).2
              ++ (enter_synthetic_long broker next_c info.qty).2)
         else
           (some { rolled := true, qty := some info.qty,
                   from_contract := some near.name, to_contract := some next_c.name,
                   exit_result := some (exit_synthetic_long broker near info.qty).1,
                   enter_result := some (enter_synthetic_long broker next_c info.qty).1 },
            (exit_synthetic_long broker near info.qty).2
              ++ (enter_synthetic_long broker next_c info.qty).2)) := by
    simp only [rollover_synthetic_if_needed, hnear, hopen]
    rw [if_neg hgate]
    rw [if_neg (fun hne => hne hexp)]
  refine ⟨?_, ?_, ?_, fun s => rfl⟩
  · intro hex
    rw [hred]
    simp [hex]
  · intro hex hent
    rw [hred]
    simp [hex, hent]
  · intro o ho
    rw [hred] at ho
    by_cases hex : (exit_synthetic_long broker near info.qty).1.exited = true
    · rw [if_neg (by simp [hex])] at ho
      by_cases hent : (enter_synthetic_long broker next_c info.qty).1.entered = true
      · rw [if_neg (by simp [hent])] at ho
        rcases List.mem_append.mp ho with hmem | hmem
        · exact exit_orders_qty broker near info.qty o hmem
        · exact enter_orders_qty broker next_c info.qty o hmem
      · have hentf : (enter_synthetic_long broker next_c info.qty).1.entered = false := by
          simpa using hent
        rw [if_pos (by simp [hentf])] at ho
        rcases List.mem_append.mp ho with hmem | hmem
        · exact exit_orders_qty broker near info.qty o hmem
        · exact enter_orders_qty broker next_c info.qty o hmem
    · have hexf : (exit_synthetic_long broker near info.qty).1.exited = false := by
        simpa using hex
      rw [if_pos (by simp [hexf])] at ho
      exact exit_orders_qty broker near info.qty o ho

/-- The near-month synthetic contract expiring on day 100. -/
def nearC : Contract :=
  { name := "NIFTY_SYN_NEAR", expiry := 100, strike := some 26000,
    call_security_id := "C1", put_security_id := "P1" }

/-- The next-month synthetic contract expiring on day 130. -/
def nextC : Contract :=
  { name := "NIFTY_SYN_NEXT", expiry := 130, strike := some 26000,
    call_security_id := "CN", put_security_id := "PN" }

/-- Broker positions: an open synthetic long of 75 in the near contract. -/
def cPositions : List BrokerPosition :=
  [{ securityId := "C1", netQty := 75 }, { securityId := "P1", netQty := -75 }]

/-- A broker oracle on which only the next-month call leg fails: the old
contract exits cleanly but the new entry cannot be made. -/
def brokerNoNext : Broker := fun o =>
  if o.security_id = "CN" then { placed := false, filled_completely := false }
  else { placed := true, filled_completely := true }

/-- The open-synthetic summary detected for `nearC` over `cPositions`. -/
def cInfo : OpenInfo := { contract := nearC, qty := 75, call_net := 75, put_net := -75 }

/-- A store holding a position for system id `sysA` in the near contract. -/
def cStore5 : Store := [("sysA", { contract := serialize_contract nearC, qty := 75 })]

/-- Witness for C5: with the exit succeeding and the new entry failing, the
rollover result is flagged `enter_new_failed_after_exit` with the traces of
both steps. -/
theorem rollover_exit_then_enter_witness :
    rollover_synthetic_if_needed 450 100 [nearC, nextC] cPositions brokerNoNext
      = (some { rolled := false, reason := some "enter_new_failed_after_exit",
                exit_result := some (exit_synthetic_long brokerNoNext nearC 75).1,
                enter_result := some (enter_synthetic_long brokerNoNext nextC 75).1 },
         (exit_synthetic_long brokerNoNext nearC 75).2
           ++ (enter_synthetic_long brokerNoNext nextC 75).2) := by
  have h := rollover_exit_then_enter 450 100 [nearC, nextC] cPositions brokerNoNext
    nearC nextC cInfo (by decide) (by decide) rfl (by decide)
  exact h.2.1 (by decide) (by decide)

/-- Counterexample for C5 as stated: in that same scenario (exit succeeded,
entry failed) the event is flagged, but the position stored for `sysA` is
not removed — the store returned by the CHECK webhook is exactly the input
store, because rollover never touches the position store. -/
theorem rollover_store_counterexample :
    (tv_webhook_check cStore5 450 100 [nearC, nextC] cPositions brokerNoNext).store
        = cStore5
    ∧ Store.get cStore5 "sysA" = some { contract := serialize_contract nearC, qty := 75 }
    ∧ ((tv_webhook_check cStore5 450 100 [nearC, nextC] cPositions brokerNoNext).rollover.map
        (fun r => r.reason)) = some (some "enter_new_failed_after_exit") := by
  refine ⟨rfl, rfl, by decide⟩

end Dhan
